import Mathlib

/-!
Shallow embedding of `colorcore/routing.py` (the routing layer of the
Colorcore Open Assets client): the transaction/output formatter, the RPC
request handler, the CLI grammar builder and the CLI operation executor.
Machine-level collaborators (the `bitcoin.core` serialization helpers,
`urllib.parse.parse_qs`, and the behavior of `argparse` on the grammars the
router builds) are embedded as executable Lean functions following those
libraries' documented behavior; everything else is translated directly from
the source file.
-/

/-- A JSON-serializable Python value, the result type of operations and the
output type of the transaction formatter. -/
inductive JsonVal where
  | str (s : String)
  | num (n : Int)
  | bool (b : Bool)
  | null
  | arr (l : List JsonVal)
  | obj (fields : List (String × JsonVal))

/-- Field lookup on a JSON object (used to observe the formatter's output). -/
def JsonVal.getField : JsonVal → String → Option JsonVal
  | .obj fields, key => fields.lookup key
  | _, _ => none

/-- Whether a JSON value is a structured object. -/
def JsonVal.isObj : JsonVal → Bool
  | .obj _ => true
  | _ => false

/-- Lowercase hex digit for a value below 16. -/
def hexDigitChar (n : Nat) : Char :=
  if n < 10 then Char.ofNat (48 + n) else Char.ofNat (87 + n)

/-- Two lowercase hex characters for one byte. -/
def byteToHex (b : Nat) : String :=
  String.mk [hexDigitChar (b / 16 % 16), hexDigitChar (b % 16)]

/-- `bitcoin.core.b2x`: hex encoding of a byte sequence. -/
def b2x (bs : List Nat) : String :=
  String.join (bs.map byteToHex)

/-- `bitcoin.core.b2lx`: hex encoding of the reversed byte sequence
(little-endian display order, used for transaction ids). -/
def b2lx (bs : List Nat) : String :=
  b2x bs.reverse

/-- Little-endian fixed-width byte encoding of a natural number. -/
def leBytes : Nat → Nat → List Nat
  | 0, _ => []
  | width + 1, n => (n % 256) :: leBytes width (n / 256)

/-- Bitcoin variable-length integer encoding. -/
def varInt (n : Nat) : List Nat :=
  if n < 0xfd then [n]
  else if n ≤ 0xffff then 0xfd :: leBytes 2 n
  else if n ≤ 0xffffffff then 0xfe :: leBytes 4 n
  else 0xff :: leBytes 8 n

/-- A length-prefixed byte field (scripts in a serialized transaction). -/
def bytesField (bs : List Nat) : List Nat :=
  varInt bs.length ++ bs

/-- `bitcoin.core.COutPoint`: a reference to a previous transaction output.
The hash is stored as its 32 raw bytes. -/
structure COutPoint where
  hash : List Nat
  n : Nat

/-- `bitcoin.core.CTxIn`: one transaction input. -/
structure CTxIn where
  prevout : COutPoint
  scriptSig : List Nat
  nSequence : Nat

/-- `bitcoin.core.CTxOut`: one transaction output. -/
structure CTxOut where
  nValue : Int
  scriptPubKey : List Nat

/-- `bitcoin.core.CTransaction`: the ledger transaction object. -/
structure CTransaction where
  nVersion : Int
  vin : List CTxIn
  vout : List CTxOut
  nLockTime : Nat

/-- Serialization of one outpoint: raw hash bytes then the 4-byte index. -/
def COutPoint.serialize (p : COutPoint) : List Nat :=
  p.hash ++ leBytes 4 p.n

/-- Serialization of one input. -/
def CTxIn.serialize (i : CTxIn) : List Nat :=
  i.prevout.serialize ++ bytesField i.scriptSig ++ leBytes 4 i.nSequence

/-- Serialization of one output (8-byte little-endian value, then script). -/
def CTxOut.serialize (o : CTxOut) : List Nat :=
  leBytes 8 (Int.toNat (o.nValue % ((2 : Int) ^ 64))) ++ bytesField o.scriptPubKey

/-- `CTransaction.serialize`: the canonical Bitcoin wire encoding of a
transaction, as produced by `bitcoin.core`. -/
def CTransaction.serialize (t : CTransaction) : List Nat :=
  leBytes 4 (Int.toNat (t.nVersion % ((2 : Int) ^ 32)))
    ++ varInt t.vin.length ++ (t.vin.map CTxIn.serialize).flatten
    ++ varInt t.vout.length ++ (t.vout.map CTxOut.serialize).flatten
    ++ leBytes 4 t.nLockTime

/-- The argument of the formatter: either a ledger transaction or any other
value (the `isinstance(transaction, bitcoin.core.CTransaction)` test in the
source is the case split of this sum). -/
inductive TxOrValue where
  | tx (t : CTransaction)
  | plain (v : JsonVal)

/-- The value handed to `Router.get_transaction_formatter`.  The CLI passes
the string parsed for the `--txformat` flag; the RPC handler passes the result
of `post_vars.pop('txformat', 'json')`, which is the stored list of form
values when the field is present and the string default when it is absent. -/
inductive FormatArg where
  | str (s : String)
  | strList (l : List String)
deriving DecidableEq

/-- The inner `get_transaction_json` of the `format == 'json'` branch of
`Router.get_transaction_formatter`. -/
def get_transaction_json : TxOrValue → JsonVal
  | .tx t => .obj
      [("version", .num t.nVersion),
       ("locktime", .num (t.nLockTime : Int)),
       ("vin", .arr (t.vin.map (fun input => JsonVal.obj
          [("txid", .str (b2lx input.prevout.hash)),
           ("vout", .num (input.prevout.n : Int)),
           ("sequence", .num (input.nSequence : Int)),
           ("scriptSig", .obj [("hex", .str (b2x input.scriptSig))])]))),
       ("vout", .arr (t.vout.enum.map (fun p => JsonVal.obj
          [("value", .num p.2.nValue),
           ("n", .num (p.1 : Int)),
           ("scriptPubKey", .obj [("hex", .str (b2x p.2.scriptPubKey))])])))]
  | .plain v => v

/-- The inner `get_transaction_json` of the `else` branch of
`Router.get_transaction_formatter` (raw hex serialization). -/
def get_transaction_json_raw : TxOrValue → JsonVal
  | .tx t => .str (b2x t.serialize)
  | .plain v => v

/-- `Router.get_transaction_formatter`: selects the structured-JSON rendering
exactly when the argument equals the string `'json'`, and the raw hex
rendering otherwise. -/
def get_transaction_formatter (format : FormatArg) : TxOrValue → JsonVal :=
  if format = FormatArg.str "json" then get_transaction_json else get_transaction_json_raw

/-- Python word-character test, the `\w` class of the path pattern
(ASCII range; operation names are ASCII identifiers). -/
def isWordChar (c : Char) : Bool :=
  c.isAlpha || c.isDigit || c = '_'

/-- The anchored path pattern of `RpcServer.handle_request`: a leading slash
followed by one or more word characters and nothing else, capturing the
operation name. -/
def matchOperationPath (path : String) : Option String :=
  match path.data with
  | '/' :: rest =>
      if rest.isEmpty then none
      else if rest.all isWordChar then some (String.mk rest) else none
  | _ => none

/-- The Python subscript test comparing the first character of a string
(the handler only reaches it on nonempty names; see the safety theorem). -/
def firstCharIs (c : Char) (s : String) : Bool :=
  match s.data with
  | [] => false
  | d :: _ => d = c

/-- Value of one hex digit, used by percent-decoding. -/
def hexVal (c : Char) : Option Nat :=
  if '0' ≤ c ∧ c ≤ '9' then some (c.toNat - 48)
  else if 'a' ≤ c ∧ c ≤ 'f' then some (c.toNat - 87)
  else if 'A' ≤ c ∧ c ≤ 'F' then some (c.toNat - 55)
  else none

/-- URL decoding of one form token as `urllib.parse` applies it: a plus sign
becomes a space and a percent escape with two hex digits becomes that byte;
malformed escapes are kept literally. -/
def pctDecode : List Char → List Char
  | [] => []
  | '%' :: a :: b :: rest =>
      match hexVal a, hexVal b with
      | some ha, some hb => Char.ofNat (16 * ha + hb) :: pctDecode rest
      | _, _ => '%' :: pctDecode (a :: b :: rest)
  | '+' :: rest => ' ' :: pctDecode rest
  | c :: rest => c :: pctDecode rest

/-- Split on a single-character separator, keeping empty pieces, as Python
string splitting does. -/
def splitOnChar (sep : Char) : List Char → List (List Char)
  | [] => [[]]
  | c :: rest =>
      if c = sep then [] :: splitOnChar sep rest
      else
        match splitOnChar sep rest with
        | [] => [[c]]
        | piece :: pieces => (c :: piece) :: pieces

/-- Split at the first occurrence of a separator, when present. -/
def splitFirst (sep : Char) : List Char → Option (List Char × List Char)
  | [] => none
  | c :: rest =>
      if c = sep then some ([], rest)
      else
        match splitFirst sep rest with
        | none => none
        | some (a, b) => some (c :: a, b)

/-- `urllib.parse.parse_qsl` with its default options: chunks split on the
ampersand and semicolon separators, empty chunks skipped, chunks without an
equals sign or with an empty value dropped, names and values URL-decoded. -/
def parse_qsl (qs : String) : List (String × String) :=
  (((splitOnChar '&' qs.data).map (splitOnChar ';')).flatten).filterMap (fun nv =>
    if nv.isEmpty then none
    else
      match splitFirst '=' nv with
      | none => none
      | some (n, v) =>
          if v.isEmpty then none
          else some (String.mk (pctDecode n), String.mk (pctDecode v)))

/-- Insert one decoded pair into the grouped mapping, appending to the value
list of an already-seen name. -/
def insertPair : List (String × List String) → String × String → List (String × List String)
  | [], (n, v) => [(n, [v])]
  | (m, vs) :: rest, (n, v) =>
      if m = n then (m, vs ++ [v]) :: rest else (m, vs) :: insertPair rest (n, v)

/-- `urllib.parse.parse_qs`: the decoded pairs grouped into a mapping from
field name to the sequence of its values in occurrence order. -/
def parse_qs (qs : String) : List (String × List String) :=
  (parse_qsl qs).foldl insertPair []

/-- The `post_vars.pop` call of the handler together with the resulting
parameter set: when the reserved field is present its stored value list is
returned and the entry removed; when absent the string default is returned
and the mapping is unchanged. -/
def popTxformat (post_vars : List (String × List String)) :
    FormatArg × List (String × List String) :=
  match post_vars.lookup "txformat" with
  | some l => (.strList l, post_vars.filter (fun kv => kv.1 ≠ "txformat"))
  | none => (.str "json", post_vars)

/-- The form parameters forwarded to the operation as named arguments. -/
def rpcKwargs (body : String) : List (String × List String) :=
  (popTxformat (parse_qs body)).2

/-- The exception classes the two front ends distinguish: the parameter-shape
mismatch raised at the call, the controller error, the transaction-builder
error (identified by the name of its concrete class), and every other
exception (carrying its message text). -/
inductive PyException where
  | typeError (msg : String)
  | controllerError (msg : String)
  | builderError (kindName : String)
  | otherError (msg : String)

/-- The outcome of evaluating the operation call. -/
inductive OpResult where
  | ok (v : JsonVal)
  | raised (e : PyException)

/-- An RPC operation: it receives the transaction formatter (through the
freshly built controller) and the remaining form parameters as named
arguments, each carrying its full list of decoded values. -/
def RpcOperation := (TxOrValue → JsonVal) → List (String × List String) → OpResult

/-- An HTTP response: status code and JSON body. -/
structure RpcResponse where
  status : Nat
  body : JsonVal

/-- The `RpcServer.error` helper: a status-400 response carrying a numbered
error envelope. -/
def rpcError (code : Int) (msg : String) : RpcResponse :=
  { status := 400,
    body := .obj [("error", .obj [("code", .num code), ("message", .str msg)])] }

/-- The top-level handler for an unrecognized exception: a status-500
envelope with code 0 and the failure text as details. -/
def internalError (details : String) : RpcResponse :=
  { status := 500,
    body := .obj [("error", .obj
      [("code", .num 0), ("message", .str "Internal server error"),
       ("details", .str details)])] }

/-- The dispatch step of `RpcServer.handle_request`: decode the body, pop the
reserved field, build the formatter, call the operation and map each failure
class to its envelope. -/
def dispatchOperation (operation : RpcOperation) (body : String) : RpcResponse :=
  match operation (get_transaction_formatter (popTxformat (parse_qs body)).1)
      (popTxformat (parse_qs body)).2 with
  | .ok v => { status := 200, body := v }
  | .raised (.typeError _) => rpcError 104 "Invalid parameters provided"
  | .raised (.controllerError m) => rpcError 201 m
  | .raised (.builderError k) => rpcError 301 k
  | .raised (.otherError t) => internalError t

/-- `RpcServer.handle_request` as a function of the operation provider, the
request path and the POST body. -/
def handle_request (provider : String → Option RpcOperation) (path body : String) :
    RpcResponse :=
  match matchOperationPath path with
  | none => rpcError 102 "The request path is invalid"
  | some operation_name =>
      if operation_name = "" ∨ firstCharIs '_' operation_name = true
          ∨ (provider operation_name).isNone = true then
        rpcError 103 ("The operation name " ++ operation_name ++ " is invalid")
      else
        match provider operation_name with
        | none => rpcError 103 ("The operation name " ++ operation_name ++ " is invalid")
        | some operation => dispatchOperation operation body

/-- A minimal concrete transaction used by the concrete theorems. -/
def exTx : CTransaction := { nVersion := 1, vin := [], vout := [], nLockTime := 0 }

/-- An operation returning the formatter's rendering of `exTx`. -/
def echoOp : RpcOperation := fun formatterFn _ => .ok (formatterFn (.tx exTx))

/-- A provider exposing `echoOp` under the name `issue`. -/
def echoProvider : String → Option RpcOperation :=
  fun n => if n = "issue" then some echoOp else none

/-- An operation raising a controller error. -/
def boomOp : RpcOperation := fun _ _ => .raised (.controllerError "boom")

/-- A provider exposing `boomOp` under the name `issue`. -/
def boomProvider : String → Option RpcOperation :=
  fun n => if n = "issue" then some boomOp else none

/-- An operation echoing its named arguments back as a JSON object. -/
def probeOp : RpcOperation :=
  fun _ kwargs =>
    .ok (.obj (kwargs.map (fun kv => (kv.1, JsonVal.arr (kv.2.map JsonVal.str)))))

/-- A provider exposing `probeOp` under the name `probe`. -/
def probeProvider : String → Option RpcOperation :=
  fun n => if n = "probe" then some probeOp else none

/-- A Python value as the CLI layer sees it: a string token parsed from the
command line or a declared default of another type (an integer in the
specification's example). -/
inductive PyVal where
  | str (s : String)
  | int (n : Int)
deriving DecidableEq

/-- The kind of a declared formal parameter, as `inspect` reports it. -/
inductive ParamKind where
  | positionalOrKeyword
  | other
deriving DecidableEq

/-- One declared formal parameter of an operation function. -/
structure PyParam where
  name : String
  default : Option PyVal
  kind : ParamKind

/-- The grammar `Router._create_subparser` builds for one operation:
positional argument names in declared order and option flags with their
default values. -/
structure CliGrammar where
  positionals : List String
  optionals : List (String × PyVal)
deriving DecidableEq

/-- `Router.extra_parameters`: the transport-level flags appended to every
operation subcommand (name, help text, default). -/
def Router.extra_parameters : List (String × String × String) :=
  [("txformat", "Format of transactions if a transaction is returned (raw or json)",
    "json")]

/-- The declared parameters the loop of `Router._create_subparser` keeps: the
implicit self parameter and parameters that are not positional-or-keyword are
skipped. -/
def declaredParams (params : List PyParam) : List PyParam :=
  params.filter (fun p => p.name ≠ "self" ∧ p.kind = ParamKind.positionalOrKeyword)

/-- `Router._create_subparser`: parameters without a default become
positional arguments in declared order; parameters with a default become
option flags carrying the declared default; the transport-level flags are
appended after them. -/
def createSubparser (params : List PyParam) : CliGrammar :=
  { positionals := ((declaredParams params).filter (fun p => p.default.isNone)).map
      (fun p => p.name)
  , optionals := (declaredParams params).filterMap
        (fun p => p.default.map (fun d => (p.name, d)))
      ++ Router.extra_parameters.map (fun e => (e.1, PyVal.str e.2.2)) }

/-- The argparse behavior on such a grammar, modeled from its documentation:
an invocation supplies one token per positional argument in order, and any
subset of the option flags; each option takes the supplied token, or its
declared default when the flag is absent. -/
def parseInvocation (g : CliGrammar) (posTokens : List String)
    (flags : List (String × String)) : Option (List (String × PyVal)) :=
  if posTokens.length = g.positionals.length then
    some (g.positionals.zip (posTokens.map PyVal.str)
      ++ g.optionals.map (fun nd =>
          (nd.1, match flags.lookup nd.1 with
                 | some tok => PyVal.str tok
                 | none => nd.2)))
  else none

/-- The declared signature of the specification's example operation, with
parameters self, required_a and optional_b defaulting to 5. -/
def exampleParams : List PyParam :=
  [{ name := "self", default := none, kind := .positionalOrKeyword },
   { name := "required_a", default := none, kind := .positionalOrKeyword },
   { name := "optional_b", default := some (.int 5), kind := .positionalOrKeyword }]

/-- The publicness test of the registration loop in `Router.__init__`: the
name's first character is not an underscore. -/
def isPublicName (name : String) : Bool :=
  !(firstCharIs '_' name)

/-- The operation subcommands `Router.__init__` registers: one per member
whose name passes the publicness test, in enumeration order. -/
def operationSubcommands {α : Type} (members : List (String × α)) : List String :=
  (members.filter (fun m => isPublicName m.1)).map Prod.fst

/-- The full subcommand list: the built-in server subcommand is added first,
then the operation subcommands. -/
def cliSubcommands {α : Type} (members : List (String × α)) : List String :=
  "server" :: operationSubcommands members

/-- Escape of one character inside a JSON string literal. -/
def jsonEscapeChar (c : Char) : String :=
  if c = '"' then "\\\""
  else if c = '\\' then "\\\\"
  else if c = '\n' then "\\n"
  else String.mk [c]

/-- Escape of a JSON string body. -/
def jsonEscape (s : String) : String :=
  String.join (s.data.map jsonEscapeChar)

mutual

/-- Rendering of a JSON value, standing for the `json.dumps` call in the
output path of the CLI front end (indentation is immaterial to the claims,
which concern the error lines). -/
def jsonDumps : JsonVal → String
  | .str s => "\"" ++ jsonEscape s ++ "\""
  | .num n => toString n
  | .bool b => if b then "true" else "false"
  | .null => "null"
  | .arr l => "[" ++ jsonDumpsList l ++ "]"
  | .obj l => "\x7b" ++ jsonDumpsObj l ++ "\x7d"

/-- Comma-separated renderings of array elements. -/
def jsonDumpsList : List JsonVal → String
  | [] => ""
  | [v] => jsonDumps v
  | v :: rest => jsonDumps v ++ ", " ++ jsonDumpsList rest

/-- Comma-separated renderings of object entries. -/
def jsonDumpsObj : List (String × JsonVal) → String
  | [] => ""
  | [(k, v)] => "\"" ++ jsonEscape k ++ "\": " ++ jsonDumps v
  | (k, v) :: rest =>
      "\"" ++ jsonEscape k ++ "\": " ++ jsonDumps v ++ ", " ++ jsonDumpsObj rest

end

/-- A CLI operation: it receives the transaction formatter (through the
freshly built controller) and the parsed arguments as named values. -/
def CliOperation := (TxOrValue → JsonVal) → List (String × PyVal) → OpResult

/-- The decorator built by `Router._execute_operation`: select the formatter
from the txformat flag, run the operation, write the rendered result or a
single error line, and let unrecognized failures propagate.  The result pair
is the sequence of strings written to the output stream and the propagated
exception, if any. -/
def executeOperation (function : CliOperation) (txformat : String)
    (kwargs : List (String × PyVal)) : List String × Option PyException :=
  match function (get_transaction_formatter (.str txformat)) kwargs with
  | .ok v => ([jsonDumps v ++ "\n"], none)
  | .raised (.controllerError m) => (["Error: " ++ m ++ "\n"], none)
  | .raised (.builderError k) => (["Error: " ++ k ++ "\n"], none)
  | .raised (.typeError m) => ([], some (.typeError m))
  | .raised (.otherError m) => ([], some (.otherError m))

/-- A CLI operation raising a controller error, for the witness. -/
def cliBoomOp : CliOperation := fun _ _ => .raised (.controllerError "boom")

/-- C7: the formatter selected by the string "json" renders a ledger transaction
as a structured object carrying the version, the lock time, per input the
referenced previous output hash and index, the sequence number and the
signature-script hex, and per output its value, its index and its script hex;
the formatter selected by "raw" renders the transaction as the hex encoding of
its canonical serialization. -/
theorem C7_formatter_transaction_rendering (t : CTransaction) :
    (get_transaction_formatter (.str "json") (.tx t)).getField "version"
        = some (.num t.nVersion)
    ∧ (get_transaction_formatter (.str "json") (.tx t)).getField "locktime"
        = some (.num (t.nLockTime : Int))
    ∧ (get_transaction_formatter (.str "json") (.tx t)).getField "vin"
        = some (.arr (t.vin.map (fun input => JsonVal.obj
            [("txid", .str (b2lx input.prevout.hash)),
             ("vout", .num (input.prevout.n : Int)),
             ("sequence", .num (input.nSequence : Int)),
             ("scriptSig", .obj [("hex", .str (b2x input.scriptSig))])])))
    ∧ (get_transaction_formatter (.str "json") (.tx t)).getField "vout"
        = some (.arr (t.vout.enum.map (fun p => JsonVal.obj
            [("value", .num p.2.nValue),
             ("n", .num (p.1 : Int)),
             ("scriptPubKey", .obj [("hex", .str (b2x p.2.scriptPubKey))])])))
    ∧ get_transaction_formatter (.str "raw") (.tx t) = .str (b2x t.serialize) :=
  ⟨rfl, rfl, rfl, rfl, rfl⟩

/-- C8: every non-transaction value passes through every formatter unchanged,
and every format string other than "json" selects a formatter extensionally
equal to the "raw" one. -/
theorem C8_formatter_passthrough_and_fallback :
    (∀ (X : String) (v : JsonVal), get_transaction_formatter (.str X) (.plain v) = v)
    ∧ (∀ X : String, X ≠ "json" →
        get_transaction_formatter (.str X) = get_transaction_formatter (.str "raw")) := by
  constructor
  · intro X v
    by_cases hX : X = "json"
    · subst hX; rfl
    · unfold get_transaction_formatter
      rw [if_neg (by simpa using hX)]
      rfl
  · intro X hX
    unfold get_transaction_formatter
    rw [if_neg (by simpa using hX), if_neg (by simp)]

/-- Witness for C8 at the unrecognized format string "hex". -/
theorem C8_formatter_passthrough_and_fallback_witness :
    ("hex" : String) ≠ "json"
    ∧ get_transaction_formatter (.str "hex") = get_transaction_formatter (.str "raw") :=
  ⟨by decide, C8_formatter_passthrough_and_fallback.2 "hex" (by decide)⟩

/-- Characterization of a successful path match. -/
theorem matchOperationPath_eq_some {path name : String}
    (h : matchOperationPath path = some name) :
    path.data = '/' :: name.data ∧ name.data ≠ [] ∧ name.data.all isWordChar = true := by
  unfold matchOperationPath at h
  split at h
  case _ rest heq =>
    by_cases h1 : rest.isEmpty
    · rw [if_pos h1] at h; exact absurd h (by simp)
    · rw [if_neg h1] at h
      by_cases h2 : rest.all isWordChar
      · rw [if_pos h2] at h
        injection h with h'
        subst h'
        exact ⟨heq, by simpa using h1, h2⟩
      · rw [if_neg h2] at h; exact absurd h (by simp)
  case _ => exact absurd h (by simp)

/-- C10: whenever the path check succeeds, the captured name is a nonempty
string of word characters; the empty-name comparison in the 103 check is
therefore never the deciding disjunct, and taking the first character of the
name is safe. -/
theorem C10_resolved_name_nonempty {path name : String}
    (h : matchOperationPath path = some name) :
    name ≠ "" ∧ name.data ≠ [] ∧ name.data.all isWordChar = true
    ∧ ∀ provider : String → Option RpcOperation,
        ((name = "" ∨ firstCharIs '_' name = true ∨ (provider name).isNone = true)
          ↔ (firstCharIs '_' name = true ∨ (provider name).isNone = true)) := by
  obtain ⟨hpath, hne, hall⟩ := matchOperationPath_eq_some h
  have hne' : name ≠ "" := by
    intro hcontra
    exact hne (by simpa using congrArg String.data hcontra)
  refine ⟨hne', hne, hall, fun provider => ?_⟩
  constructor
  · rintro (h1 | h2)
    · exact absurd h1 hne'
    · exact h2
  · exact fun h2 => Or.inr h2

/-- Witness for C10 at the request path of the `issue` operation. -/
theorem C10_resolved_name_nonempty_witness :
    matchOperationPath "/issue" = some "issue" ∧ ("issue" : String) ≠ "" :=
  ⟨rfl, (C10_resolved_name_nonempty
    (rfl : matchOperationPath "/issue" = some "issue")).1⟩

/-- C4: a request path that is not exactly a slash followed by one or more
word characters yields the code-102 envelope, and a syntactically valid path
whose captured name is private-prefixed or absent from the provider yields
the code-103 envelope. -/
theorem C4_path_and_name_validation (provider : String → Option RpcOperation)
    (path body : String) :
    ((¬ ∃ rest : List Char, path.data = '/' :: rest ∧ rest ≠ []
        ∧ rest.all isWordChar = true) →
      handle_request provider path body = rpcError 102 "The request path is invalid")
    ∧ (∀ name, matchOperationPath path = some name →
        (firstCharIs '_' name = true ∨ provider name = none) →
        handle_request provider path body
          = rpcError 103 ("The operation name " ++ name ++ " is invalid")) := by
  constructor
  · intro hno
    have hnone : matchOperationPath path = none := by
      unfold matchOperationPath
      split
      case _ rest heq =>
        by_cases h1 : rest.isEmpty
        · rw [if_pos h1]
        · rw [if_neg h1]
          by_cases h2 : rest.all isWordChar
          · exact absurd ⟨rest, heq, by simpa using h1, h2⟩ hno
          · rw [if_neg h2]
      case _ => rfl
    simp only [handle_request, hnone]
  · intro name hname hbad
    have hcond : (name = "" ∨ firstCharIs '_' name = true
        ∨ (provider name).isNone = true) := by
      rcases hbad with hb | hb
      · exact Or.inr (Or.inl hb)
      · exact Or.inr (Or.inr (by rw [hb]; rfl))
    simp only [handle_request, hname]
    rw [if_pos hcond]

/-- Witness for C4 at the paths `/` (invalid shape) and `/_private`
(private-prefixed name). -/
theorem C4_path_and_name_validation_witness :
    handle_request echoProvider "/" "" = rpcError 102 "The request path is invalid"
    ∧ handle_request echoProvider "/_private" ""
        = rpcError 103 "The operation name _private is invalid" := by
  constructor
  · refine (C4_path_and_name_validation echoProvider "/" "").1 ?_
    rintro ⟨rest, heq, hne, -⟩
    have h2 : ('/' :: ([] : List Char)) = '/' :: rest := heq
    injection h2 with _ h3
    exact hne h3.symm
  · exact (C4_path_and_name_validation echoProvider "/_private" "").2 "_private" rfl
      (Or.inl rfl)

/-- C1: once a request resolves to an operation, the error envelope is
determined by the failure class: a parameter-shape mismatch yields code 104
at status 400, a controller error yields code 201 with the failure message at
status 400, a transaction-builder error yields code 301 with the failure kind
name at status 400, and any other exception yields code 0 with message
"Internal server error", the failure text as details, at status 500. -/
theorem C1_rpc_error_mapping (provider : String → Option RpcOperation)
    (path body name : String) (operation : RpcOperation)
    (hpath : matchOperationPath path = some name)
    (hpub : firstCharIs '_' name = false)
    (hop : provider name = some operation) :
    (∀ m, operation (get_transaction_formatter (popTxformat (parse_qs body)).1)
          (popTxformat (parse_qs body)).2 = .raised (.typeError m) →
        handle_request provider path body
          = rpcError 104 "Invalid parameters provided")
    ∧ (∀ m, operation (get_transaction_formatter (popTxformat (parse_qs body)).1)
          (popTxformat (parse_qs body)).2 = .raised (.controllerError m) →
        handle_request provider path body = rpcError 201 m)
    ∧ (∀ k, operation (get_transaction_formatter (popTxformat (parse_qs body)).1)
          (popTxformat (parse_qs body)).2 = .raised (.builderError k) →
        handle_request provider path body = rpcError 301 k)
    ∧ (∀ t, operation (get_transaction_formatter (popTxformat (parse_qs body)).1)
          (popTxformat (parse_qs body)).2 = .raised (.otherError t) →
        handle_request provider path body = internalError t) := by
  have hprops := matchOperationPath_eq_some hpath
  have hne : name ≠ "" := by
    intro hcontra
    exact hprops.2.1 (by simpa using congrArg String.data hcontra)
  have hred : handle_request provider path body = dispatchOperation operation body := by
    simp only [handle_request, hpath]
    rw [if_neg ?_, hop]
    rintro (h | h | h)
    · exact hne h
    · rw [hpub] at h; exact Bool.false_ne_true h
    · rw [hop] at h; simp at h
  refine ⟨fun m hm => ?_, fun m hm => ?_, fun k hk => ?_, fun t ht => ?_⟩
  · rw [hred]; simp only [dispatchOperation, hm]
  · rw [hred]; simp only [dispatchOperation, hm]
  · rw [hred]; simp only [dispatchOperation, hk]
  · rw [hred]; simp only [dispatchOperation, ht]

/-- Witness for C1: a controller failure surfaces as the code-201 envelope. -/
theorem C1_rpc_error_mapping_witness :
    handle_request boomProvider "/issue" "" = rpcError 201 "boom" :=
  (C1_rpc_error_mapping boomProvider "/issue" "" "issue" boomOp rfl rfl rfl).2.1 "boom" rfl

/-- C2 (failing input): with the body field `txformat=json` present, the pop
returns the stored list, which is not equal to the string `'json'`, so the
raw formatter is selected and the echoed transaction is rendered as a hex
string; with the field absent the string default selects the structured-JSON
formatter. -/
theorem C2_txformat_list_selects_raw :
    popTxformat (parse_qs "txformat=json") = (FormatArg.strList ["json"], [])
    ∧ handle_request echoProvider "/issue" "txformat=json"
        = { status := 200, body := .str "01000000000000000000" }
    ∧ handle_request echoProvider "/issue" ""
        = { status := 200, body := get_transaction_json (.tx exTx) }
    ∧ (get_transaction_json (.tx exTx)).isObj = true
    ∧ (JsonVal.str "01000000000000000000").isObj = false :=
  ⟨rfl, rfl, rfl, rfl, rfl⟩

/-- Lookup of a name other than the reserved one is unaffected by removing
the reserved entry from the mapping. -/
theorem lookup_filter_of_ne {l : List (String × List String)} {name : String}
    {vs : List String} (hname : name ≠ "txformat")
    (h : l.lookup name = some vs) :
    (l.filter (fun kv => kv.1 ≠ "txformat")).lookup name = some vs := by
  induction l with
  | nil => simp [List.lookup] at h
  | cons kv rest ih =>
      obtain ⟨k, v⟩ := kv
      rw [List.filter_cons]
      by_cases hk : name = k
      · subst hk
        rw [if_pos (by simpa using hname)]
        simpa [List.lookup] using h
      · have hbk : (name == k) = false := by
          by_contra hcontra
          exact hk (eq_of_beq (by simpa using hcontra))
        have h' : rest.lookup name = some vs := by
          simpa [List.lookup, hbk] using h
        by_cases hkt : k = "txformat"
        · rw [if_neg (by simp [hkt])]
          exact ih h'
        · rw [if_pos (by simpa using hkt)]
          simpa [List.lookup, hbk] using ih h'

/-- C9: every form field other than the reserved `txformat` reaches the
operation as a named argument carrying the entire decoded value list, and the
probe request shows the operation receiving exactly the post-pop mapping. -/
theorem C9_form_fields_forwarded (body name : String) (vs : List String)
    (hname : name ≠ "txformat")
    (hlk : (parse_qs body).lookup name = some vs) :
    (rpcKwargs body).lookup name = some vs
    ∧ handle_request probeProvider "/probe" body
        = { status := 200,
            body := .obj ((rpcKwargs body).map
              (fun kv => (kv.1, JsonVal.arr (kv.2.map JsonVal.str)))) } := by
  constructor
  · unfold rpcKwargs popTxformat
    cases htx : (parse_qs body).lookup "txformat" with
    | some l => exact lookup_filter_of_ne hname hlk
    | none => simpa using hlk
  · rfl

/-- Witness for C9 on a body with a repeated field and a txformat field. -/
theorem C9_form_fields_forwarded_witness :
    (rpcKwargs "a=1&a=2&txformat=raw").lookup "a" = some ["1", "2"] :=
  (C9_form_fields_forwarded "a=1&a=2&txformat=raw" "a" ["1", "2"] (by decide) rfl).1

/-- C3 (counterexample): the registration loop only tests the leading
underscore, so a provider exposing a public operation named server gets it
registered as an operation subcommand, contradicting the claim that the name
server is never registered as one. -/
theorem C3_counterexample :
    ¬ ∀ (α : Type) (members : List (String × α)),
        ∀ n ∈ operationSubcommands members,
          firstCharIs '_' n = false ∧ n ≠ "server" := by
  intro h
  exact (h Unit [("server", ())] "server" (by decide)).2 rfl

/-- C3 (amended): the operation-subcommand list contains exactly the member
names that do not start with an underscore — one subcommand each when the
provider's names are distinct — and the built-in server subcommand is added
in front; the reserved name server is not excluded by the loop. -/
theorem C3_amended_operation_registry {α : Type} (members : List (String × α))
    (h : (members.map Prod.fst).Nodup) :
    (∀ n : String, n ∈ operationSubcommands members
        ↔ n ∈ members.map Prod.fst ∧ firstCharIs '_' n = false)
    ∧ (operationSubcommands members).Nodup
    ∧ cliSubcommands members = "server" :: operationSubcommands members := by
  refine ⟨fun n => ?_, ?_, rfl⟩
  · constructor
    · intro hn
      simp only [operationSubcommands, List.mem_map, List.mem_filter] at hn
      obtain ⟨m, ⟨hm, hpub⟩, rfl⟩ := hn
      refine ⟨List.mem_map_of_mem Prod.fst hm, ?_⟩
      simpa [isPublicName] using hpub
    · rintro ⟨hmem, hpub⟩
      simp only [List.mem_map] at hmem
      obtain ⟨m, hm, rfl⟩ := hmem
      simp only [operationSubcommands, List.mem_map, List.mem_filter]
      exact ⟨m, ⟨hm, by simpa [isPublicName] using hpub⟩, rfl⟩
  · have hsub : List.Sublist (operationSubcommands members) (members.map Prod.fst) := by
      simpa [operationSubcommands] using
        (List.filter_sublist members).map Prod.fst
    exact List.Nodup.sublist hsub h

/-- Witness for the amended C3 on a provider with one public and one private
operation. -/
theorem C3_amended_operation_registry_witness :
    ("issue" ∈ operationSubcommands [("issue", 0), ("_priv", 0)])
    ∧ ("_priv" ∉ operationSubcommands [("issue", 0), ("_priv", 0)])
    ∧ (operationSubcommands [("issue", 0), ("_priv", 0)]).Nodup := by
  have hmain := C3_amended_operation_registry
      ([("issue", 0), ("_priv", 0)] : List (String × Nat)) (by decide)
  refine ⟨(hmain.1 "issue").mpr ⟨by decide, rfl⟩, ?_, hmain.2.1⟩
  intro hmem
  exact absurd ((hmain.1 "_priv").mp hmem).2 (by decide)

/-- C5 (counterexample): the router appends exactly one transport-level flag,
not three: the option-flag names derived for the example signature are the
declared optional parameter followed by txformat alone. -/
theorem C5_counterexample :
    (createSubparser exampleParams).optionals.map Prod.fst = ["optional_b", "txformat"]
    ∧ ¬ 3 ≤ Router.extra_parameters.length :=
  ⟨rfl, by decide⟩

/-- C5 (amended): positional arguments are the declared no-default parameter
names in order, option flags are the declared defaulted parameters followed
by the single transport-level flag txformat defaulting to "json", and on the
example signature the derived grammar binds the optional parameter to its
declared default when the flag is absent and to the supplied token when
present. -/
theorem C5_cli_grammar (params : List PyParam) :
    (createSubparser params).positionals
        = ((declaredParams params).filter (fun p => p.default.isNone)).map
            (fun p => p.name)
    ∧ (createSubparser params).optionals
        = (declaredParams params).filterMap
            (fun p => p.default.map (fun d => (p.name, d)))
          ++ [("txformat", PyVal.str "json")]
    ∧ parseInvocation (createSubparser exampleParams) ["VALUE_A"] []
        = some [("required_a", .str "VALUE_A"), ("optional_b", .int 5),
                ("txformat", .str "json")]
    ∧ parseInvocation (createSubparser exampleParams) ["VALUE_A"] [("optional_b", "9")]
        = some [("required_a", .str "VALUE_A"), ("optional_b", .str "9"),
                ("txformat", .str "json")] :=
  ⟨rfl, rfl, rfl, rfl⟩

/-- C6: the CLI executor writes exactly one line of the form
"Error: <text>" for a controller error (the message) or a transaction-builder
error (the kind name) and propagates nothing; every other raised failure is
written nowhere and propagates out of the invocation. -/
theorem C6_cli_error_handling (function : CliOperation) (txformat : String)
    (kwargs : List (String × PyVal)) :
    (∀ m, function (get_transaction_formatter (.str txformat)) kwargs
          = .raised (.controllerError m) →
        executeOperation function txformat kwargs = (["Error: " ++ m ++ "\n"], none))
    ∧ (∀ k, function (get_transaction_formatter (.str txformat)) kwargs
          = .raised (.builderError k) →
        executeOperation function txformat kwargs = (["Error: " ++ k ++ "\n"], none))
    ∧ (∀ m, function (get_transaction_formatter (.str txformat)) kwargs
          = .raised (.typeError m) →
        executeOperation function txformat kwargs = ([], some (.typeError m)))
    ∧ (∀ m, function (get_transaction_formatter (.str txformat)) kwargs
          = .raised (.otherError m) →
        executeOperation function txformat kwargs = ([], some (.otherError m))) := by
  refine ⟨fun m hm => ?_, fun k hk => ?_, fun m hm => ?_, fun m hm => ?_⟩
  · simp only [executeOperation, hm]
  · simp only [executeOperation, hk]
  · simp only [executeOperation, hm]
  · simp only [executeOperation, hm]

/-- Witness for C6: a controller error maps to the single error line. -/
theorem C6_cli_error_handling_witness :
    executeOperation cliBoomOp "json" [] = (["Error: boom\n"], none) :=
  (C6_cli_error_handling cliBoomOp "json" []).1 "boom" rfl
